import Mathlib

/-!
Verification of the content-summarizer application (`src/app.py`).

The Python source is shallowly embedded: each function of the app becomes a
Lean definition over explicit data, with the external collaborators (the two
URL document loaders, the LLM client construction and the summarization
chain's completion call) passed in as function parameters, since they live
outside the repository.  Streamlit side effects (`st.error`, `st.exception`,
`st.info`, `st.success`, `st.write`) and `time.sleep` are recorded in trace
structures.
-/

namespace App

/-- `langchain.schema.Document`: a normalized unit of extracted plain text. -/
structure Document where
  page_content : String
deriving DecidableEq, Repr

/-- `pat` is an initial segment of `s` (on character lists). -/
def listStartsWith : List Char → List Char → Bool
  | _, [] => true
  | [], _ :: _ => false
  | c :: cs, p :: ps => c = p && listStartsWith cs ps

/-- `pat` occurs as a contiguous run somewhere in `s` (on character lists). -/
def listHasSubstr : List Char → List Char → Bool
  | [], pat => listStartsWith [] pat
  | s@(_ :: cs), pat => listStartsWith s pat || listHasSubstr cs pat

/-- Python's substring test `pat in s`.  (Defined over character lists so
that it evaluates by `decide`.) -/
def strContains (s pat : String) : Bool :=
  listHasSubstr s.data pat.data

/-- Python's `str.lower()` (ASCII).  (Defined over character lists so that
it evaluates by `decide`.) -/
def pyLower (s : String) : String :=
  String.mk (s.data.map Char.toLower)

/-- The check on line 91 of `app.py`: `"rate limit" in str(e).lower()`. -/
def rate_limit_in (e : String) : Bool :=
  strContains (pyLower e) "rate limit"

/-- The batch slicing loop head of `summarize_docs` (lines 84-85 of `app.py`):
`for i in range(0, len(docs), batch_size): batch = docs[i:i+batch_size]`.
Python's `range(0, L, step)` has `ceil(L / step)` elements, and the slice
`docs[i:i+step]` is `(docs.drop i).take step`. -/
def sliceBatches (batch_size : Nat) (docs : List Document) : List (List Document) :=
  (List.range ((docs.length + batch_size - 1) / batch_size)).map
    (fun k => (docs.drop (k * batch_size)).take batch_size)

/-- Recursive presentation of batch slicing at the fixed size 5, used to
reason about `sliceBatches` by induction. -/
def chunk5 (l : List Document) : List (List Document) :=
  if l = [] then [] else l.take 5 :: chunk5 (l.drop 5)
termination_by l.length
decreasing_by
  simp only [List.length_drop]
  rename_i h
  have : l.length ≠ 0 := fun h0 => h (List.eq_nil_of_length_eq_zero h0)
  omega

theorem chunk5_nil : chunk5 [] = [] := by
  simp [chunk5]

theorem chunk5_cons (l : List Document) (h : l ≠ []) :
    chunk5 l = l.take 5 :: chunk5 (l.drop 5) := by
  rw [chunk5]
  simp [h]

theorem sliceBatches_eq_chunk5 (docs : List Document) :
    sliceBatches 5 docs = chunk5 docs := by
  have H : ∀ n (l : List Document), l.length = n → sliceBatches 5 l = chunk5 l := by
    intro n
    induction n using Nat.strong_induction_on with
    | _ n ih =>
      intro l hn
      rcases Decidable.em (l = []) with rfl | hne
      · simp [sliceBatches, chunk5_nil]
      · have hpos : 0 < l.length := List.length_pos.mpr hne
        rw [chunk5_cons l hne]
        have hcount : (l.length + 5 - 1) / 5 = ((l.drop 5).length + 5 - 1) / 5 + 1 := by
          simp only [List.length_drop]
          omega
        have htail : sliceBatches 5 (l.drop 5) = chunk5 (l.drop 5) := by
          exact ih (l.drop 5).length (by simp; omega) (l.drop 5) rfl
        rw [sliceBatches, hcount, List.range_succ_eq_map, List.map_cons, List.map_map]
        simp only [Nat.zero_mul, List.drop_zero]
        congr 1
        rw [← htail, sliceBatches]
        apply List.map_congr_left
        intro k _
        simp only [Function.comp_apply]
        rw [Nat.succ_mul, Nat.add_comm, ← List.drop_drop]
  exact H docs.length docs rfl

theorem sliceBatches_flatten (docs : List Document) :
    (sliceBatches 5 docs).flatten = docs := by
  rw [sliceBatches_eq_chunk5]
  have H : ∀ n (l : List Document), l.length = n → (chunk5 l).flatten = l := by
    intro n
    induction n using Nat.strong_induction_on with
    | _ n ih =>
      intro l hn
      rcases Decidable.em (l = []) with rfl | hne
      · simp [chunk5_nil]
      · rw [chunk5_cons l hne]
        have hpos : 0 < l.length := List.length_pos.mpr hne
        have htail : (chunk5 (l.drop 5)).flatten = l.drop 5 := by
          exact ih (l.drop 5).length (by simp; omega) (l.drop 5) rfl
        simp [htail]
  exact H docs.length docs rfl

theorem sliceBatches_length (docs : List Document) :
    (sliceBatches 5 docs).length = (docs.length + 5 - 1) / 5 := by
  simp [sliceBatches]

theorem sliceBatches_get (docs : List Document) (k : Nat)
    (hk : k < (sliceBatches 5 docs).length) :
    (sliceBatches 5 docs).get ⟨k, hk⟩ = (docs.drop (k * 5)).take 5 := by
  simp [sliceBatches]

/-- Trace of one `summarize_docs` run: the batches sent to `chain.run`, the
collected summaries, the messages shown by `st.exception` and `st.info`, and
the durations passed to `time.sleep`. -/
structure SummState where
  requests : List (List Document)
  summaries : List String
  errorsShown : List String
  infosShown : List String
  sleeps : List Nat
deriving DecidableEq, Repr

/-- The batch loop of `summarize_docs` (lines 84-93 of `app.py`).  The
completion call `chain.run(batch)` is the external parameter `chainRun`:
`Except.ok s` is a returned summary, `Except.error e` an exception with
message `e`. -/
def summLoop (chainRun : List Document → Except String String) :
    List (List Document) → SummState → SummState
  | [], st => st
  | batch :: rest, st =>
    let st1 : SummState := { st with requests := st.requests ++ [batch] }
    match chainRun batch with
    | Except.ok s =>
      summLoop chainRun rest { st1 with summaries := st1.summaries ++ [s] }
    | Except.error e =>
      let st2 : SummState :=
        { st1 with errorsShown :=
            st1.errorsShown ++ ["An error occurred during summarization: " ++ e] }
      if rate_limit_in e then
        summLoop chainRun rest
          { st2 with
            infosShown := st2.infosShown ++ ["Rate limit reached. Retrying after a pause..."],
            sleeps := st2.sleeps ++ [300] }
      else
        summLoop chainRun rest st2

/-- `summarize_docs` (lines 66-100 of `app.py`).  `llmInit` models the
construction of the LLM client, prompt and chain inside the outer `try`
(lines 69-79): `Except.error e` is an exception raised there and caught by
the outer handler (lines 98-100), which shows the error and returns `None`.
On success the batch loop runs and the newline-join of the collected
summaries is returned. -/
def summarize_docs (llmInit : Except String Unit)
    (chainRun : List Document → Except String String)
    (docs : List Document) : SummState × Option String :=
  match llmInit with
  | Except.error e =>
    (⟨[], [], ["An error occurred: " ++ e], [], []⟩, none)
  | Except.ok _ =>
    let st := summLoop chainRun (sliceBatches 5 docs) ⟨[], [], [], [], []⟩
    (st, some (String.intercalate "\n" st.summaries))

/-- The summaries that the batch loop collects: one per batch whose
completion call succeeds, in batch order. -/
def okSummaries (chainRun : List Document → Except String String)
    (bs : List (List Document)) : List String :=
  bs.filterMap (fun b => (chainRun b).toOption)

/-- The `st.exception` messages of the batch loop: one per failing batch. -/
def batchErrors (chainRun : List Document → Except String String)
    (bs : List (List Document)) : List String :=
  bs.filterMap (fun b =>
    match chainRun b with
    | Except.error e => some ("An error occurred during summarization: " ++ e)
    | Except.ok _ => none)

/-- The `st.info` messages of the batch loop: one per rate-limited batch. -/
def rateInfos (chainRun : List Document → Except String String)
    (bs : List (List Document)) : List String :=
  bs.filterMap (fun b =>
    match chainRun b with
    | Except.error e =>
      if rate_limit_in e then some "Rate limit reached. Retrying after a pause..." else none
    | Except.ok _ => none)

/-- The `time.sleep` calls of the batch loop: 300 seconds per rate-limited
batch, nothing otherwise. -/
def rateSleeps (chainRun : List Document → Except String String)
    (bs : List (List Document)) : List Nat :=
  bs.filterMap (fun b =>
    match chainRun b with
    | Except.error e => if rate_limit_in e then some 300 else none
    | Except.ok _ => none)

theorem summLoop_spec (chainRun : List Document → Except String String)
    (bs : List (List Document)) (st : SummState) :
    summLoop chainRun bs st =
      ⟨st.requests ++ bs,
       st.summaries ++ okSummaries chainRun bs,
       st.errorsShown ++ batchErrors chainRun bs,
       st.infosShown ++ rateInfos chainRun bs,
       st.sleeps ++ rateSleeps chainRun bs⟩ := by
  induction bs generalizing st with
  | nil => simp [summLoop, okSummaries, batchErrors, rateInfos, rateSleeps]
  | cons b rest ih =>
    rcases hb : chainRun b with e | s
    · by_cases hr : rate_limit_in e
      · simp [summLoop, hb, hr, ih, okSummaries, batchErrors, rateInfos, rateSleeps,
          List.filterMap_cons, Except.toOption]
      · simp [summLoop, hb, hr, ih, okSummaries, batchErrors, rateInfos, rateSleeps,
          List.filterMap_cons, Except.toOption]
    · simp [summLoop, hb, ih, okSummaries, batchErrors, rateInfos, rateSleeps,
        List.filterMap_cons, Except.toOption]

theorem summarize_docs_ok (chainRun : List Document → Except String String)
    (docs : List Document) :
    summarize_docs (Except.ok ()) chainRun docs =
      (⟨sliceBatches 5 docs,
        okSummaries chainRun (sliceBatches 5 docs),
        batchErrors chainRun (sliceBatches 5 docs),
        rateInfos chainRun (sliceBatches 5 docs),
        rateSleeps chainRun (sliceBatches 5 docs)⟩,
       some (String.intercalate "\n" (okSummaries chainRun (sliceBatches 5 docs)))) := by
  simp [summarize_docs, summLoop_spec]

/-- The fixed `User-Agent` request header passed to `UnstructuredURLLoader`
on line 38 of `app.py`. -/
def mozillaUserAgent : String :=
  "Mozilla/5.0 (Macintosh; Intel Mac OS X 13_5_1) AppleWebKit/537.36 (KHTML, like Gecko) Chrome/116.0.0.0 Safari/537.36"

/-- The three possible effects of one iteration of the `process_urls` loop:
a `YoutubeLoader` call (with its `add_video_info` flag), an
`UnstructuredURLLoader` call (with its `ssl_verify` flag and `User-Agent`
header), or an `st.error` for an invalid URL. -/
inductive UrlAction where
  | videoCall (url : String) (add_video_info : Bool)
  | webCall (urls : List String) (ssl_verify : Bool) (user_agent : String)
  | invalidUrlError (msg : String)
deriving DecidableEq, Repr

/-- The dispatch decision of lines 30-43 of `app.py` for one URL:
the `youtube.com` substring test first, then `validators.url` (the external
validator is the parameter `validUrl`), else the invalid-URL error. -/
def dispatch_url (validUrl : String → Bool) (url : String) : UrlAction :=
  if strContains url "youtube.com" then
    UrlAction.videoCall url true
  else if validUrl url then
    UrlAction.webCall [url] false mozillaUserAgent
  else
    UrlAction.invalidUrlError ("Invalid URL: " ++ url)

/-- Trace of one `process_urls` run: the loader calls and errors in order,
and the accumulated `docs` list. -/
structure UrlTrace where
  actions : List UrlAction
  docs : List Document
  errors : List String
deriving DecidableEq, Repr

/-- One iteration of the `for url in urls` loop of `process_urls`
(lines 29-43 of `app.py`).  `youtubeLoad url flag` models
`YoutubeLoader.from_youtube_url(url, add_video_info=flag).load()` and
`urlLoad urls sv ua` models `UnstructuredURLLoader(urls, ssl_verify=sv,
headers=ua).load()`; both are external loaders returning document lists. -/
def runUrl (youtubeLoad : String → Bool → List Document)
    (urlLoad : List String → Bool → String → List Document)
    (validUrl : String → Bool) (tr : UrlTrace) (url : String) : UrlTrace :=
  if strContains url "youtube.com" then
    { tr with actions := tr.actions ++ [UrlAction.videoCall url true],
              docs := tr.docs ++ youtubeLoad url true }
  else if validUrl url then
    { tr with actions := tr.actions ++ [UrlAction.webCall [url] false mozillaUserAgent],
              docs := tr.docs ++ urlLoad [url] false mozillaUserAgent }
  else
    { tr with actions := tr.actions ++ [UrlAction.invalidUrlError ("Invalid URL: " ++ url)],
              errors := tr.errors ++ ["Invalid URL: " ++ url] }

/-- `process_urls` (lines 26-44 of `app.py`): fold the per-URL loop body
over the input list, starting from empty accumulators.  (The `if urls:`
guard on line 28 is the identity on the empty list.) -/
def process_urls (youtubeLoad : String → Bool → List Document)
    (urlLoad : List String → Bool → String → List Document)
    (validUrl : String → Bool) (urls : List String) : UrlTrace :=
  urls.foldl (runUrl youtubeLoad urlLoad validUrl) ⟨[], [], []⟩

/-- The documents one URL contributes, per the dispatch decision. -/
def urlDocs (youtubeLoad : String → Bool → List Document)
    (urlLoad : List String → Bool → String → List Document)
    (validUrl : String → Bool) (url : String) : List Document :=
  if strContains url "youtube.com" then youtubeLoad url true
  else if validUrl url then urlLoad [url] false mozillaUserAgent
  else []

theorem process_urls_fold (youtubeLoad : String → Bool → List Document)
    (urlLoad : List String → Bool → String → List Document)
    (validUrl : String → Bool) (urls : List String) (tr : UrlTrace) :
    urls.foldl (runUrl youtubeLoad urlLoad validUrl) tr =
      ⟨tr.actions ++ urls.map (dispatch_url validUrl),
       tr.docs ++ urls.flatMap (urlDocs youtubeLoad urlLoad validUrl),
       tr.errors ++ (urls.filter
           (fun u => !(strContains u "youtube.com") && !(validUrl u))).map
         (fun u => "Invalid URL: " ++ u)⟩ := by
  induction urls generalizing tr with
  | nil => simp
  | cons u rest ih =>
    by_cases hy : strContains u "youtube.com"
    · simp [runUrl, dispatch_url, urlDocs, hy, ih]
    · by_cases hv : validUrl u
      · simp [runUrl, dispatch_url, urlDocs, hy, hv, ih]
      · simp [runUrl, dispatch_url, urlDocs, hy, hv, ih]

theorem process_urls_spec (youtubeLoad : String → Bool → List Document)
    (urlLoad : List String → Bool → String → List Document)
    (validUrl : String → Bool) (urls : List String) :
    process_urls youtubeLoad urlLoad validUrl urls =
      ⟨urls.map (dispatch_url validUrl),
       urls.flatMap (urlDocs youtubeLoad urlLoad validUrl),
       (urls.filter (fun u => !(strContains u "youtube.com") && !(validUrl u))).map
         (fun u => "Invalid URL: " ++ u)⟩ := by
  simpa using process_urls_fold youtubeLoad urlLoad validUrl urls ⟨[], [], []⟩

/-- Python truthiness of a `pdfplumber` `page.extract_text()` result, used
as the generator filter on line 52 of `app.py`: `None` and the empty string
are falsy. -/
def truthyText : Option String → Bool
  | none => false
  | some s => !s.isEmpty

/-- `process_pdfs` (lines 47-54 of `app.py`).  Each uploaded PDF is
modelled by the per-page results of `page.extract_text()` (`none` when the
page yields no text).  The generator
`page.extract_text() for page in pdf.pages if page.extract_text()`
is a map over a filter, joined with newlines into one `Document` per file. -/
def process_pdfs (pdf_files : List (List (Option String))) : List Document :=
  pdf_files.map (fun pages =>
    ⟨String.intercalate "\n" ((pages.filter truthyText).map (fun t => t.getD ""))⟩)

/-- ASCII whitespace stripped by Python's `str.strip()`. -/
def pyIsSpace (c : Char) : Bool :=
  c = ' ' || c = '\t' || c = '\n' || c = '\r' || c = Char.ofNat 11 || c = Char.ofNat 12

/-- Python's `str.strip()`: drop leading and trailing whitespace.  (Defined
over the character list so that it evaluates by `decide`.) -/
def pyStrip (s : String) : String :=
  String.mk (((s.data.dropWhile pyIsSpace).reverse.dropWhile pyIsSpace).reverse)

/-- Observable outcome of one press of the summarize button:
how many times the mode's extraction function ran, the `summarize_docs`
trace when the summarizer ran (`none` when it was never invoked, so no
chain was constructed and no completion request issued), the credential
error message if shown, and whether `st.success` / `st.write` fired. -/
structure AppOutcome where
  extraction_calls : Nat
  summ_trace : Option (SummState × Option String)
  shown_error : Option String
  shown_success : Bool
  shown_summary : Option String
deriving DecidableEq, Repr

/-- The `st.button` handler (lines 124-141 of `app.py`).  `groq_api_key` is
the result of `os.getenv("GROQ_API_KEY")` on line 19: `none` when the
variable is absent.  Line 125 evaluates `groq_api_key.strip()` first, so an
absent key raises `AttributeError` (modelled as `Except.error`), which
nothing catches: the action crashes.  Python's `str.strip()` is `pyStrip`,
and a stripped string is falsy exactly when it is empty.  `extract`
abstracts the selected mode's extraction (`process_urls` / `process_pdfs` /
`process_texts`); `if docs:` and `if summary:` are Python truthiness of a
list and of an optional string. -/
def st_button_handler (groq_api_key : Option String) (topic_title : String)
    (extract : Unit → List Document) (llmInit : Except String Unit)
    (chainRun : List Document → Except String String) : Except String AppOutcome :=
  match groq_api_key with
  | none => Except.error "AttributeError: NoneType object has no attribute strip"
  | some key =>
    if pyStrip key = "" || pyStrip topic_title = "" then
      Except.ok ⟨0, none,
        some "Please provide the Groq API Key and a topic/title to get started.",
        false, none⟩
    else
      let docs := extract ()
      if docs.isEmpty then
        Except.ok ⟨1, none, none, false, none⟩
      else
        let tr := summarize_docs llmInit chainRun docs
        match tr.2 with
        | some s =>
          if s = "" then Except.ok ⟨1, some tr, none, false, none⟩
          else Except.ok ⟨1, some tr, none, true, some s⟩
        | none => Except.ok ⟨1, some tr, none, false, none⟩

/-- C1: if the completion call for batch `i` raises an exception with
message `e`, the summarizer reports the error; every batch — including
those after `i` — is requested exactly once in order, so the failed batch
is not retried and processing continues with batch `i+1`; the collected
summaries are exactly those of the succeeding batches before and after
`i`, so the final summary excludes batch `i`’s contribution; and the
sleep trace splits around batch `i` into the pauses of the earlier
batches, then one fixed 300-second pause exactly when `e` contains
`"rate limit"` in any letter case and no pause at all otherwise, then the
pauses of the later batches — so a non-rate-limit exception causes no
pause and processing likewise continues. -/
theorem rate_limit_error_pauses_and_skips
    (chainRun : List Document → Except String String) (docs : List Document)
    (i : Nat) (hi : i < (sliceBatches 5 docs).length) (e : String)
    (he : chainRun ((sliceBatches 5 docs).get ⟨i, hi⟩) = Except.error e) :
    ("An error occurred during summarization: " ++ e)
        ∈ (summarize_docs (Except.ok ()) chainRun docs).1.errorsShown ∧
    (summarize_docs (Except.ok ()) chainRun docs).1.requests = sliceBatches 5 docs ∧
    (summarize_docs (Except.ok ()) chainRun docs).1.summaries
        = okSummaries chainRun ((sliceBatches 5 docs).take i)
          ++ okSummaries chainRun ((sliceBatches 5 docs).drop (i + 1)) ∧
    (summarize_docs (Except.ok ()) chainRun docs).2
        = some (String.intercalate "\n"
            (okSummaries chainRun ((sliceBatches 5 docs).take i)
              ++ okSummaries chainRun ((sliceBatches 5 docs).drop (i + 1)))) ∧
    (summarize_docs (Except.ok ()) chainRun docs).1.sleeps
        = rateSleeps chainRun ((sliceBatches 5 docs).take i)
          ++ (if rate_limit_in e then [(300 : Nat)] else [])
          ++ rateSleeps chainRun ((sliceBatches 5 docs).drop (i + 1)) := by
  have hmem : (sliceBatches 5 docs).get ⟨i, hi⟩ ∈ sliceBatches 5 docs :=
    List.get_mem _ _ hi
  have hsplit : sliceBatches 5 docs
      = (sliceBatches 5 docs).take i
        ++ (sliceBatches 5 docs).get ⟨i, hi⟩ :: (sliceBatches 5 docs).drop (i + 1) := by
    rw [List.get_eq_getElem, ← List.drop_eq_getElem_cons hi, List.take_append_drop]
  have hsumm : okSummaries chainRun (sliceBatches 5 docs)
      = okSummaries chainRun ((sliceBatches 5 docs).take i)
        ++ okSummaries chainRun ((sliceBatches 5 docs).drop (i + 1)) := by
    have h1 := congrArg (okSummaries chainRun) hsplit
    simp only [okSummaries, List.filterMap_append, List.filterMap_cons, he,
      Except.toOption] at h1
    exact h1
  have hsleep : rateSleeps chainRun (sliceBatches 5 docs)
      = rateSleeps chainRun ((sliceBatches 5 docs).take i)
        ++ (if rate_limit_in e then [(300 : Nat)] else [])
        ++ rateSleeps chainRun ((sliceBatches 5 docs).drop (i + 1)) := by
    have h1 := congrArg (rateSleeps chainRun) hsplit
    simp only [rateSleeps, List.filterMap_append, List.filterMap_cons, he] at h1
    by_cases hr : rate_limit_in e
    · simp only [hr, if_true] at h1
      simp only [rateSleeps, hr, if_true]
      rw [h1]
      simp [List.append_assoc]
    · simp only [hr, Bool.false_eq_true, if_false] at h1
      simp only [rateSleeps, hr, Bool.false_eq_true, if_false]
      rw [h1]
      simp
  rw [summarize_docs_ok]
  refine ⟨?_, rfl, hsumm, ?_, hsleep⟩
  · exact List.mem_filterMap.mpr ⟨_, hmem, by rw [he]⟩
  · rw [hsumm]

/-- C1 witness: six documents form two batches; the first batch fails with
the non-rate-limit message `"boom"` and the second with a rate-limit
message.  Applying the theorem to the first batch shows its error is
reported, both batches are requested once in order, no summary is
collected, and the sleep trace around batch 0 holds no pause for it
(`rate_limit_in "boom"` is false) while the later rate-limited batch still
contributes its own pause. -/
theorem rate_limit_error_pauses_and_skips_witness :
    ("An error occurred during summarization: " ++ "boom")
        ∈ (summarize_docs (Except.ok ())
            (fun b => if b.length = 5 then Except.error "boom" else Except.error "Rate Limit hit")
            [⟨"a"⟩, ⟨"b"⟩, ⟨"c"⟩, ⟨"d"⟩, ⟨"e"⟩, ⟨"f"⟩]).1.errorsShown ∧
    (summarize_docs (Except.ok ())
        (fun b => if b.length = 5 then Except.error "boom" else Except.error "Rate Limit hit")
        [⟨"a"⟩, ⟨"b"⟩, ⟨"c"⟩, ⟨"d"⟩, ⟨"e"⟩, ⟨"f"⟩]).1.requests
      = sliceBatches 5 [⟨"a"⟩, ⟨"b"⟩, ⟨"c"⟩, ⟨"d"⟩, ⟨"e"⟩, ⟨"f"⟩] ∧
    (summarize_docs (Except.ok ())
        (fun b => if b.length = 5 then Except.error "boom" else Except.error "Rate Limit hit")
        [⟨"a"⟩, ⟨"b"⟩, ⟨"c"⟩, ⟨"d"⟩, ⟨"e"⟩, ⟨"f"⟩]).1.summaries
      = okSummaries
          (fun b => if b.length = 5 then Except.error "boom" else Except.error "Rate Limit hit")
          ((sliceBatches 5 [⟨"a"⟩, ⟨"b"⟩, ⟨"c"⟩, ⟨"d"⟩, ⟨"e"⟩, ⟨"f"⟩]).take 0)
        ++ okSummaries
          (fun b => if b.length = 5 then Except.error "boom" else Except.error "Rate Limit hit")
          ((sliceBatches 5 [⟨"a"⟩, ⟨"b"⟩, ⟨"c"⟩, ⟨"d"⟩, ⟨"e"⟩, ⟨"f"⟩]).drop (0 + 1)) ∧
    (summarize_docs (Except.ok ())
        (fun b => if b.length = 5 then Except.error "boom" else Except.error "Rate Limit hit")
        [⟨"a"⟩, ⟨"b"⟩, ⟨"c"⟩, ⟨"d"⟩, ⟨"e"⟩, ⟨"f"⟩]).2
      = some (String.intercalate "\n"
          (okSummaries
            (fun b => if b.length = 5 then Except.error "boom" else Except.error "Rate Limit hit")
            ((sliceBatches 5 [⟨"a"⟩, ⟨"b"⟩, ⟨"c"⟩, ⟨"d"⟩, ⟨"e"⟩, ⟨"f"⟩]).take 0)
          ++ okSummaries
            (fun b => if b.length = 5 then Except.error "boom" else Except.error "Rate Limit hit")
            ((sliceBatches 5 [⟨"a"⟩, ⟨"b"⟩, ⟨"c"⟩, ⟨"d"⟩, ⟨"e"⟩, ⟨"f"⟩]).drop (0 + 1)))) ∧
    (summarize_docs (Except.ok ())
        (fun b => if b.length = 5 then Except.error "boom" else Except.error "Rate Limit hit")
        [⟨"a"⟩, ⟨"b"⟩, ⟨"c"⟩, ⟨"d"⟩, ⟨"e"⟩, ⟨"f"⟩]).1.sleeps
      = rateSleeps
          (fun b => if b.length = 5 then Except.error "boom" else Except.error "Rate Limit hit")
          ((sliceBatches 5 [⟨"a"⟩, ⟨"b"⟩, ⟨"c"⟩, ⟨"d"⟩, ⟨"e"⟩, ⟨"f"⟩]).take 0)
        ++ (if rate_limit_in "boom" then [(300 : Nat)] else [])
        ++ rateSleeps
          (fun b => if b.length = 5 then Except.error "boom" else Except.error "Rate Limit hit")
          ((sliceBatches 5 [⟨"a"⟩, ⟨"b"⟩, ⟨"c"⟩, ⟨"d"⟩, ⟨"e"⟩, ⟨"f"⟩]).drop (0 + 1)) :=
  rate_limit_error_pauses_and_skips
    (fun b => if b.length = 5 then Except.error "boom" else Except.error "Rate Limit hit")
    [⟨"a"⟩, ⟨"b"⟩, ⟨"c"⟩, ⟨"d"⟩, ⟨"e"⟩, ⟨"f"⟩] 0 (by decide) "boom" rfl

/-- C2: the summarizer requests exactly the contiguous size-5 slices of the
document list, one completion request per batch in batch order; the number
of requests is `ceil(L / 5)`; the batches concatenate back to the input;
every batch is nonempty of size at most 5; and every batch except possibly
the last has size exactly 5. -/
theorem batches_are_contiguous_ceil
    (chainRun : List Document → Except String String) (docs : List Document) :
    (summarize_docs (Except.ok ()) chainRun docs).1.requests = sliceBatches 5 docs ∧
    (summarize_docs (Except.ok ()) chainRun docs).1.requests.length
        = (docs.length + 5 - 1) / 5 ∧
    (sliceBatches 5 docs).flatten = docs ∧
    (∀ k (hk : k < (sliceBatches 5 docs).length),
      (sliceBatches 5 docs).get ⟨k, hk⟩ = (docs.drop (k * 5)).take 5) ∧
    (∀ b ∈ sliceBatches 5 docs, b ≠ [] ∧ b.length ≤ 5) ∧
    (∀ k (hk : k < (sliceBatches 5 docs).length),
      k + 1 < (sliceBatches 5 docs).length →
      ((sliceBatches 5 docs).get ⟨k, hk⟩).length = 5) := by
  refine ⟨?_, ?_, sliceBatches_flatten docs, sliceBatches_get docs, ?_, ?_⟩
  · rw [summarize_docs_ok]
  · rw [summarize_docs_ok]
    exact sliceBatches_length docs
  · intro b hb
    simp only [sliceBatches, List.mem_map, List.mem_range] at hb
    obtain ⟨k, hk, rfl⟩ := hb
    have hlt : k * 5 < docs.length := by
      have h1 : k + 1 ≤ (docs.length + 5 - 1) / 5 := hk
      have h2 : (k + 1) * 5 ≤ docs.length + 5 - 1 :=
        (Nat.le_div_iff_mul_le (by omega)).mp h1
      omega
    constructor
    · intro hnil
      have : ((docs.drop (k * 5)).take 5).length = 0 := by rw [hnil]; rfl
      simp only [List.length_take, List.length_drop] at this
      omega
    · simp [List.length_take]
  · intro k hk hk1
    rw [sliceBatches_get]
    rw [sliceBatches_length] at hk1
    have h2 : (k + 2) * 5 ≤ docs.length + 5 - 1 :=
      (Nat.le_div_iff_mul_le (by omega)).mp hk1
    simp only [List.length_take, List.length_drop]
    omega

/-- C2 witness: seven documents yield two requests, the slices concatenate
back to the input, the first batch has five documents and the second two. -/
theorem batches_are_contiguous_ceil_witness :
    (summarize_docs (Except.ok ()) (fun _ => Except.ok "S")
        [⟨"a"⟩, ⟨"b"⟩, ⟨"c"⟩, ⟨"d"⟩, ⟨"e"⟩, ⟨"f"⟩, ⟨"g"⟩]).1.requests.length = 2 ∧
    (sliceBatches 5 [⟨"a"⟩, ⟨"b"⟩, ⟨"c"⟩, ⟨"d"⟩, ⟨"e"⟩, ⟨"f"⟩, ⟨"g"⟩]).flatten
      = [⟨"a"⟩, ⟨"b"⟩, ⟨"c"⟩, ⟨"d"⟩, ⟨"e"⟩, ⟨"f"⟩, ⟨"g"⟩] ∧
    ((sliceBatches 5 [⟨"a"⟩, ⟨"b"⟩, ⟨"c"⟩, ⟨"d"⟩, ⟨"e"⟩, ⟨"f"⟩, ⟨"g"⟩]).get
        ⟨0, by decide⟩).length = 5 := by
  have h := batches_are_contiguous_ceil (fun _ => Except.ok "S")
    [⟨"a"⟩, ⟨"b"⟩, ⟨"c"⟩, ⟨"d"⟩, ⟨"e"⟩, ⟨"f"⟩, ⟨"g"⟩]
  exact ⟨by rw [h.1]; decide, h.2.2.1, h.2.2.2.2.2 0 (by decide) (by decide)⟩

/-- C3: `summarize_docs` returns the newline-joined concatenation of the
successfully produced batch summaries, in batch order, when the client and
chain construction succeeds; when that top-level construction raises it
shows the error and returns `none` rather than a string. -/
theorem summarize_result_shape (llmInit : Except String Unit)
    (chainRun : List Document → Except String String) (docs : List Document) :
    (summarize_docs llmInit chainRun docs).2 =
      (match llmInit with
       | Except.ok _ =>
         some (String.intercalate "\n" (okSummaries chainRun (sliceBatches 5 docs)))
       | Except.error _ => none) ∧
    (summarize_docs llmInit chainRun docs).1.errorsShown =
      (match llmInit with
       | Except.ok _ => batchErrors chainRun (sliceBatches 5 docs)
       | Except.error e => ["An error occurred: " ++ e]) := by
  cases llmInit with
  | ok u => rw [summarize_docs_ok]; exact ⟨rfl, rfl⟩
  | error e => exact ⟨rfl, rfl⟩

/-- C4: the claim that an absent API key is handled the same way as a blank
one fails on the code.  With the environment variable unset,
`os.getenv` yields `None` and line 125 calls `.strip()` on it, raising an
uncaught `AttributeError` that crashes the action; with a blank key the
handler shows the friendly error message.  The two concrete runs below
differ only in the key (`none` versus a whitespace-only string). -/
theorem absent_key_crashes_blank_key_errors :
    st_button_handler none "topic" (fun _ => [⟨"d"⟩]) (Except.ok ())
        (fun _ => Except.ok "S")
      = Except.error "AttributeError: NoneType object has no attribute strip" ∧
    st_button_handler (some "   ") "topic" (fun _ => [⟨"d"⟩]) (Except.ok ())
        (fun _ => Except.ok "S")
      = Except.ok ⟨0, none,
          some "Please provide the Groq API Key and a topic/title to get started.",
          false, none⟩ := by
  exact ⟨rfl, rfl⟩

/-- C5: when the credential string or the topic/title string strips to
empty, the handler shows the error message and performs no further work:
the extraction function is never invoked and the summarizer (hence any
completion request) never runs. -/
theorem blank_inputs_error_and_stop (key topic_title : String)
    (extract : Unit → List Document) (llmInit : Except String Unit)
    (chainRun : List Document → Except String String)
    (h : pyStrip key = "" ∨ pyStrip topic_title = "") :
    st_button_handler (some key) topic_title extract llmInit chainRun
      = Except.ok ⟨0, none,
          some "Please provide the Groq API Key and a topic/title to get started.",
          false, none⟩ := by
  have hguard : (pyStrip key = "" || pyStrip topic_title = "") = true := by
    rcases h with h | h <;> simp [h]
  simp [st_button_handler, hguard]

/-- C5 witness: a whitespace-only key with a real topic stops immediately
with the error message. -/
theorem blank_inputs_error_and_stop_witness :
    st_button_handler (some " ") "greek letters" (fun _ => [⟨"d"⟩])
        (Except.ok ()) (fun _ => Except.ok "S")
      = Except.ok ⟨0, none,
          some "Please provide the Groq API Key and a topic/title to get started.",
          false, none⟩ :=
  blank_inputs_error_and_stop " " "greek letters" (fun _ => [⟨"d"⟩])
    (Except.ok ()) (fun _ => Except.ok "S") (Or.inl (by decide))

/-- C9: when extraction yields no documents while the credential and topic
are non-blank, the summarizer is never invoked — no chain construction, no
completion request — and neither the success message nor a summary is
shown. -/
theorem empty_docs_skip_summarizer (key topic_title : String)
    (extract : Unit → List Document) (llmInit : Except String Unit)
    (chainRun : List Document → Except String String)
    (hk : ¬ pyStrip key = "") (ht : ¬ pyStrip topic_title = "")
    (hext : extract () = []) :
    st_button_handler (some key) topic_title extract llmInit chainRun
      = Except.ok ⟨1, none, none, false, none⟩ := by
  simp [st_button_handler, hk, ht, hext]

/-- C9 witness: extraction returning the empty list leads to the
no-summarizer outcome. -/
theorem empty_docs_skip_summarizer_witness :
    st_button_handler (some "gsk-key") "greek letters" (fun _ => [])
        (Except.ok ()) (fun _ => Except.ok "S")
      = Except.ok ⟨1, none, none, false, none⟩ :=
  empty_docs_skip_summarizer "gsk-key" "greek letters" (fun _ => [])
    (Except.ok ()) (fun _ => Except.ok "S") (by decide) (by decide) rfl

/-- C10: when the document list is nonempty and every batch's completion
call raises, `summarize_docs` returns the empty string (not `None`), and
the button handler treats that empty string as no summary: the trace is
recorded but neither the success message nor a summary is displayed. -/
theorem all_batches_fail_empty_summary (key topic_title : String)
    (docs : List Document) (chainRun : List Document → Except String String)
    (hk : ¬ pyStrip key = "") (ht : ¬ pyStrip topic_title = "")
    (hne : docs ≠ [])
    (hfail : ∀ b ∈ sliceBatches 5 docs, (chainRun b).toOption = none) :
    (summarize_docs (Except.ok ()) chainRun docs).2 = some "" ∧
    st_button_handler (some key) topic_title (fun _ => docs) (Except.ok ()) chainRun
      = Except.ok ⟨1, some (summarize_docs (Except.ok ()) chainRun docs),
          none, false, none⟩ := by
  have hsumm : okSummaries chainRun (sliceBatches 5 docs) = [] := by
    simp only [okSummaries, List.filterMap_eq_nil_iff]
    exact hfail
  have hres : (summarize_docs (Except.ok ()) chainRun docs).2 = some "" := by
    rw [summarize_docs_ok]
    simp [hsumm, String.intercalate]
  refine ⟨hres, ?_⟩
  have hde : docs.isEmpty = false := by
    cases docs with
    | nil => exact absurd rfl hne
    | cons d ds => rfl
  simp [st_button_handler, hk, ht, hde, hres]

/-- C10 witness: one document, one failing batch, empty-string summary and
no success output. -/
theorem all_batches_fail_empty_summary_witness :
    (summarize_docs (Except.ok ()) (fun _ => Except.error "boom") [⟨"a"⟩]).2
      = some "" ∧
    st_button_handler (some "gsk-key") "greek letters" (fun _ => [⟨"a"⟩])
        (Except.ok ()) (fun _ => Except.error "boom")
      = Except.ok ⟨1,
          some (summarize_docs (Except.ok ()) (fun _ => Except.error "boom") [⟨"a"⟩]),
          none, false, none⟩ :=
  all_batches_fail_empty_summary "gsk-key" "greek letters" [⟨"a"⟩]
    (fun _ => Except.error "boom") (by decide) (by decide) (by decide)
    (by intro b _; rfl)

/-- The flattened documents of one URL list have one entry per extractable
URL when each loader call yields exactly one document. -/
theorem flatMap_urlDocs_length (youtubeLoad : String → Bool → List Document)
    (urlLoad : List String → Bool → String → List Document)
    (validUrl : String → Bool)
    (hyt : ∀ u b, (youtubeLoad u b).length = 1)
    (hweb : ∀ us sv ua, (urlLoad us sv ua).length = 1)
    (urls : List String) :
    (urls.flatMap (urlDocs youtubeLoad urlLoad validUrl)).length =
      (urls.filter (fun u => strContains u "youtube.com" || validUrl u)).length := by
  induction urls with
  | nil => rfl
  | cons u rest ih =>
    by_cases hy : strContains u "youtube.com"
    · simp [urlDocs, hy, hyt, ih, Nat.add_comm]
    · by_cases hv : validUrl u
      · simp [urlDocs, hy, hv, hweb, ih, Nat.add_comm]
      · simp [urlDocs, hy, hv, ih]

/-- C7: for a non-empty URL list whose loaders yield one document per
successful extraction, `process_urls` returns the loader documents in
input order, exactly one document per URL that is a video link or
validates, zero documents for each invalid URL, and one `st.error` report
per invalid URL, with processing continuing over the whole list. -/
theorem urls_one_doc_each (youtubeLoad : String → Bool → List Document)
    (urlLoad : List String → Bool → String → List Document)
    (validUrl : String → Bool) (urls : List String)
    (_hne : urls ≠ [])
    (hyt : ∀ u b, (youtubeLoad u b).length = 1)
    (hweb : ∀ us sv ua, (urlLoad us sv ua).length = 1) :
    (process_urls youtubeLoad urlLoad validUrl urls).docs =
      urls.flatMap (urlDocs youtubeLoad urlLoad validUrl) ∧
    (process_urls youtubeLoad urlLoad validUrl urls).docs.length =
      (urls.filter (fun u => strContains u "youtube.com" || validUrl u)).length ∧
    (process_urls youtubeLoad urlLoad validUrl urls).errors =
      (urls.filter (fun u => !(strContains u "youtube.com") && !(validUrl u))).map
        (fun u => "Invalid URL: " ++ u) := by
  rw [process_urls_spec]
  exact ⟨rfl, flatMap_urlDocs_length youtubeLoad urlLoad validUrl hyt hweb urls,
    rfl⟩

/-- C7 witness: a video link, a valid page URL and an invalid item yield
two documents in input order and one invalid-URL error. -/
theorem urls_one_doc_each_witness :
    (process_urls (fun u _ => [⟨"yt:" ++ u⟩]) (fun us _ _ => [⟨"web:" ++ String.intercalate "," us⟩])
        (fun u => u = "https://ok.example") 
        ["https://youtube.com/watch?v=1", "https://ok.example", "not a url"]).docs =
      ["https://youtube.com/watch?v=1", "https://ok.example", "not a url"].flatMap
        (urlDocs (fun u _ => [⟨"yt:" ++ u⟩])
          (fun us _ _ => [⟨"web:" ++ String.intercalate "," us⟩])
          (fun u => u = "https://ok.example")) ∧
    (process_urls (fun u _ => [⟨"yt:" ++ u⟩]) (fun us _ _ => [⟨"web:" ++ String.intercalate "," us⟩])
        (fun u => u = "https://ok.example")
        ["https://youtube.com/watch?v=1", "https://ok.example", "not a url"]).docs.length =
      (["https://youtube.com/watch?v=1", "https://ok.example", "not a url"].filter
        (fun u => strContains u "youtube.com" || (u = "https://ok.example" : Bool))).length ∧
    (process_urls (fun u _ => [⟨"yt:" ++ u⟩]) (fun us _ _ => [⟨"web:" ++ String.intercalate "," us⟩])
        (fun u => u = "https://ok.example")
        ["https://youtube.com/watch?v=1", "https://ok.example", "not a url"]).errors =
      (["https://youtube.com/watch?v=1", "https://ok.example", "not a url"].filter
        (fun u => !(strContains u "youtube.com") && !(u = "https://ok.example" : Bool))).map
        (fun u => "Invalid URL: " ++ u) :=
  urls_one_doc_each (fun u _ => [⟨"yt:" ++ u⟩])
    (fun us _ _ => [⟨"web:" ++ String.intercalate "," us⟩])
    (fun u => u = "https://ok.example")
    ["https://youtube.com/watch?v=1", "https://ok.example", "not a url"]
    (by decide) (fun _ _ => rfl) (fun _ _ _ => rfl)

/-- C8: the per-URL dispatch of `process_urls` follows the source order:
the `youtube.com` host-substring test first sends the item to
video-transcript extraction with `add_video_info := true`; otherwise a
validating URL goes to web-page extraction with `ssl_verify := false` and
the fixed browser `User-Agent` header; otherwise an invalid-URL error is
recorded for that item only, and the action trace covers every input, so
processing continues after an invalid item. -/
theorem url_dispatch_priority (youtubeLoad : String → Bool → List Document)
    (urlLoad : List String → Bool → String → List Document)
    (validUrl : String → Bool) (urls : List String) (u : String)
    (hy : strContains u "youtube.com" = false → validUrl u = false) :
    (process_urls youtubeLoad urlLoad validUrl urls).actions
      = urls.map (dispatch_url validUrl) ∧
    (∀ v, strContains v "youtube.com" = true →
      dispatch_url validUrl v = UrlAction.videoCall v true) ∧
    (∀ v, strContains v "youtube.com" = false → validUrl v = true →
      dispatch_url validUrl v = UrlAction.webCall [v] false mozillaUserAgent) ∧
    (strContains u "youtube.com" = false →
      dispatch_url validUrl u = UrlAction.invalidUrlError ("Invalid URL: " ++ u)) := by
  refine ⟨?_, ?_, ?_, ?_⟩
  · rw [process_urls_spec]
  · intro v hv
    simp [dispatch_url, hv]
  · intro v hv hval
    simp [dispatch_url, hv, hval]
  · intro hu
    simp [dispatch_url, hu, hy hu]

/-- C8 witness: the three dispatch outcomes at concrete URLs — a video
link (even one failing validation), a validating page URL, and an invalid
item — plus the full action trace of one run over all three. -/
theorem url_dispatch_priority_witness :
    (process_urls (fun u _ => [⟨"yt:" ++ u⟩]) (fun _ _ _ => [⟨"web"⟩])
        (fun u => u = "https://ok.example")
        ["https://youtube.com/watch?v=1", "https://ok.example", "not a url"]).actions
      = ["https://youtube.com/watch?v=1", "https://ok.example", "not a url"].map
          (dispatch_url (fun u => u = "https://ok.example")) ∧
    dispatch_url (fun u => u = "https://ok.example") "https://youtube.com/watch?v=1"
      = UrlAction.videoCall "https://youtube.com/watch?v=1" true ∧
    dispatch_url (fun u => u = "https://ok.example") "https://ok.example"
      = UrlAction.webCall ["https://ok.example"] false mozillaUserAgent ∧
    dispatch_url (fun u => u = "https://ok.example") "not a url"
      = UrlAction.invalidUrlError ("Invalid URL: " ++ "not a url") := by
  have h := url_dispatch_priority (fun u _ => [⟨"yt:" ++ u⟩]) (fun _ _ _ => [⟨"web"⟩])
    (fun u => u = "https://ok.example")
    ["https://youtube.com/watch?v=1", "https://ok.example", "not a url"]
    "not a url" (by decide)
  exact ⟨h.1, h.2.1 "https://youtube.com/watch?v=1" (by decide),
    h.2.2.1 "https://ok.example" (by decide) (by decide), h.2.2.2 (by decide)⟩

/-- The filtered-then-projected page texts are the non-empty extraction
results in page order. -/
theorem filter_truthy_map_eq_filterMap (pages : List (Option String)) :
    (pages.filter truthyText).map (fun t => t.getD "") =
      pages.filterMap (fun t =>
        match t with
        | some s => if s.isEmpty then none else some s
        | none => none) := by
  induction pages with
  | nil => rfl
  | cons p ps ih =>
    cases p with
    | none => simpa [truthyText] using ih
    | some s =>
      by_cases hs : s.isEmpty
      · simp [truthyText, hs, ih]
      · simp [truthyText, hs, ih]

/-- C6: the PDF extractor produces exactly one `Document` per uploaded
file, whose content is the newline-join of exactly the pages whose
extraction yields non-empty text, in page order, with the other pages
skipped. -/
theorem pdf_pages_joined_in_order (pdf_files : List (List (Option String))) :
    (process_pdfs pdf_files).length = pdf_files.length ∧
    process_pdfs pdf_files = pdf_files.map (fun pages =>
      ⟨String.intercalate "\n" (pages.filterMap (fun t =>
        match t with
        | some s => if s.isEmpty then none else some s
        | none => none))⟩) := by
  constructor
  · simp [process_pdfs]
  · unfold process_pdfs
    apply List.map_congr_left
    intro pages _
    congr 2
    exact filter_truthy_map_eq_filterMap pages

end App
